import Mathlib

/-! DeArrow-Thumbnails: the embed-replacement handler of `bot.go`.

A shallow embedding of `replaceYouTubeEmbed` and `formatThumbnailURL`.

* Go's `float64` is modelled bit-exactly as an IEEE 754 binary64 triple
  (sign, biased exponent, fraction); multiplication rounds to nearest, ties to
  even, and the `%f` verb prints the exactly rounded six-digit decimal.
* The handler is a pure function of the event and of a `World`, the record of
  answers given by the collaborators it calls (the caches, `net/url`,
  `net/http`, the JSON decoder, the REST client).  It returns the trace of the
  effects it performed, in order, and how it ended: a normal return or a nil
  dereference.  A lookup whose ok flag the handler discards is an `Option`:
  the channel of the event, which is nil when it is not cached, and the parsed
  URL, which is nil when parsing failed.
-/

set_option maxRecDepth 100000
set_option exponentiation.threshold 4096

namespace DeArrow

/-! ## float64 -/

/-- IEEE 754 binary64 value, the representation of Go's float64. -/
structure Float64 where
  sign : Bool
  expo : Fin 2048
  frac : Fin 4503599627370496
deriving DecidableEq, Repr

namespace Float64

def isNaN (x : Float64) : Bool := x.expo.val == 2047 && x.frac.val != 0

def isInf (x : Float64) : Bool := x.expo.val == 2047 && x.frac.val == 0

def isZero (x : Float64) : Bool := x.expo.val == 0 && x.frac.val == 0

def isFinite (x : Float64) : Bool := x.expo.val != 2047

def nan : Float64 := ⟨false, ⟨2047, by decide⟩, ⟨2251799813685248, by decide⟩⟩

def inf (s : Bool) : Float64 := ⟨s, ⟨2047, by decide⟩, ⟨0, by decide⟩⟩

def zero (s : Bool) : Float64 := ⟨s, ⟨0, by decide⟩, ⟨0, by decide⟩⟩

/-- The magnitude of a finite `x` is `(toScaled x).1 * 2 ^ (toScaled x).2`:
subnormals have no hidden bit and the exponent of the smallest normal. -/
def toScaled (x : Float64) : Nat × Int :=
  if x.expo.val = 0 then (x.frac.val, -1074)
  else (4503599627370496 + x.frac.val, (x.expo.val : Int) - 1075)

def bitLenAux : Nat → Nat → Nat
  | 0, _ => 0
  | fuel + 1, n => if n = 0 then 0 else bitLenAux fuel (n / 2) + 1

/-- Number of binary digits of `n`. -/
def bitLen (n : Nat) : Nat := bitLenAux n n

/-- The integer nearest to `n / d`, a tie going to the even neighbour. -/
def roundHalfEven (n d : Nat) : Nat :=
  let q := n / d
  let r := n % d
  if 2 * r < d then q
  else if d < 2 * r then q + 1
  else if q % 2 = 0 then q else q + 1

/-- The float64 nearest to `m * 2 ^ e` with sign `s` (round to nearest, ties to
even; gradual underflow; overflow to infinity). -/
def round (s : Bool) (m : Nat) (e : Int) : Float64 :=
  if m = 0 then zero s
  else
    let q : Int := max (e + (bitLen m : Int) - 53) (-1074)
    let mant : Nat :=
      if q ≤ e then m * 2 ^ (e - q).toNat else roundHalfEven m (2 ^ (q - e).toNat)
    let mant2 : Nat := if mant = 9007199254740992 then 4503599627370496 else mant
    let q2 : Int := if mant = 9007199254740992 then q + 1 else q
    if mant2 < 4503599627370496 then
      ⟨s, ⟨0, by decide⟩, ⟨mant2 % 4503599627370496, Nat.mod_lt _ (by decide)⟩⟩
    else if 2047 ≤ q2 + 1075 then inf s
    else
      ⟨s, ⟨(q2 + 1075).toNat % 2048, Nat.mod_lt _ (by decide)⟩,
        ⟨(mant2 - 4503599627370496) % 4503599627370496, Nat.mod_lt _ (by decide)⟩⟩

/-- The float64 a JSON integer literal decodes to. -/
def ofNat (n : Nat) : Float64 := round false n 0

/-- Go's `a * b` on float64. -/
def mul (a b : Float64) : Float64 :=
  if a.isNaN || b.isNaN then nan
  else if a.isInf || b.isInf then
    if a.isZero || b.isZero then nan else inf (xor a.sign b.sign)
  else round (xor a.sign b.sign) (a.toScaled.1 * b.toScaled.1) (a.toScaled.2 + b.toScaled.2)

/-- Go's `a == b` on float64: a NaN equals nothing, the two zeros are equal. -/
def eq (a b : Float64) : Bool :=
  !a.isNaN && !b.isNaN && ((a.isZero && b.isZero) || decide (a = b))

/-- Go's `a != b` on float64. -/
def ne (a b : Float64) : Bool := !(eq a b)

def digitChar (n : Nat) : Char := Char.ofNat (48 + n % 10)

/-- The six decimal digits of `n % 1000000`, leading zeros kept. -/
def fracDigits (n : Nat) : List Char :=
  [digitChar (n / 100000), digitChar (n / 10000), digitChar (n / 1000),
   digitChar (n / 100), digitChar (n / 10), digitChar n]

/-- The magnitude of a finite `x` times `10 ^ 6`, rounded to an integer. -/
def scaled6 (x : Float64) : Nat :=
  let m := x.toScaled.1
  let e := x.toScaled.2
  if 0 ≤ e then m * 2 ^ e.toNat * 1000000 else roundHalfEven (m * 1000000) (2 ^ (-e).toNat)

/-- The text the verb `%f` of package fmt prints for a float64: precision six,
the sign only when the sign bit is set, and "NaN", "+Inf", "-Inf" for the
values that are not numbers. -/
def fmtF (x : Float64) : String :=
  if x.isNaN then "NaN"
  else if x.isInf then (if x.sign then "-Inf" else "+Inf")
  else
    (if x.sign then "-" else "") ++ Nat.repr (scaled6 x / 1000000) ++ "."
      ++ String.mk (fracDigits (scaled6 x % 1000000))

end Float64

/-! ## fmt.Sprintf -/

/-- An operand of Sprintf. -/
inductive Arg where
  | str (s : String)
  | float (x : Float64)

/-- Expansion of a format string over its operands, for the verbs this program
uses: `%s` on a string, `%f` on a float64, and `%%`.  Every other combination
(another verb, an operand of the wrong type, a missing or a surplus operand) is
outside this model and gives `none`. -/
def sprintfAux : List Char → List Arg → Option (List Char)
  | [], [] => some []
  | [], _ :: _ => none
  | '%' :: 's' :: rest, Arg.str s :: args => (sprintfAux rest args).map (s.data ++ ·)
  | '%' :: 'f' :: rest, Arg.float x :: args =>
      (sprintfAux rest args).map ((Float64.fmtF x).data ++ ·)
  | '%' :: '%' :: rest, args => (sprintfAux rest args).map ('%' :: ·)
  | '%' :: _, _ => none
  | c :: rest, args => (sprintfAux rest args).map (c :: ·)

/-- Model of fmt.Sprintf; the empty string stands for a result outside the model. -/
def Sprintf (format : String) (args : List Arg) : String :=
  match sprintfAux format.data args with
  | some cs => String.mk cs
  | none => ""

/-! ## Constants of bot.go -/

def dearrowApiURL : String := "https://sponsor.ajay.app/api/branding?videoID=%s"

def dearrowThumbnailApiURL : String :=
  "https://dearrow-thumb.ajay.app/api/v1/getThumbnail?videoID=%s&time=%f&generateNow=true"

/-- The function formatThumbnailURL of bot.go. -/
def formatThumbnailURL (videoID : String) (timestamp : Float64) : String :=
  Sprintf dearrowThumbnailApiURL [Arg.str videoID, Arg.float timestamp]

/-! ## The discord data model

The fields of the library types that the handler reads or writes.  A field that
is a pointer in Go is an `Option`; `none` is the nil pointer. -/

abbrev Snowflake := Nat

structure EmbedResource where
  URL : String
  ProxyURL : String := ""
deriving DecidableEq, Repr

structure EmbedProvider where
  Name : String
  URL : String := ""
deriving DecidableEq, Repr

structure EmbedAuthor where
  Name : String
  URL : String
  IconURL : String
  ProxyIconURL : String := ""
deriving DecidableEq, Repr

structure EmbedFooter where
  Text : String
  IconURL : String := ""
deriving DecidableEq, Repr

structure Embed where
  Title : String := ""
  Description : String := ""
  URL : String := ""
  Color : Int := 0
  Footer : Option EmbedFooter := none
  Image : Option EmbedResource := none
  Thumbnail : Option EmbedResource := none
  Provider : Option EmbedProvider := none
  Author : Option EmbedAuthor := none
deriving DecidableEq, Repr

namespace EmbedBuilder

/-- The builder starts from the zero Embed. -/
def NewEmbedBuilder : Embed := {}

def SetColor (b : Embed) (color : Int) : Embed := { b with Color := color }

/-- Allocates the author block when it is nil, then sets its three fields. -/
def SetAuthor (b : Embed) (name url iconURL : String) : Embed :=
  match b.Author with
  | none => { b with Author := some { Name := name, URL := url, IconURL := iconURL } }
  | some a => { b with Author := some { a with Name := name, URL := url, IconURL := iconURL } }

def SetURL (b : Embed) (url : String) : Embed := { b with URL := url }

/-- Allocates the footer when it is nil, then sets its text. -/
def SetFooterText (b : Embed) (text : String) : Embed :=
  match b.Footer with
  | none => { b with Footer := some { Text := text } }
  | some f => { b with Footer := some { f with Text := text } }

def SetTitle (b : Embed) (title : String) : Embed := { b with Title := title }

/-- Allocates the image resource when it is nil, then sets its URL. -/
def SetImage (b : Embed) (url : String) : Embed :=
  match b.Image with
  | none => { b with Image := some { URL := url } }
  | some r => { b with Image := some { r with URL := url } }

end EmbedBuilder

structure Message where
  Embeds : List Embed
deriving DecidableEq, Repr

/-- The event both listeners hand to the handler. -/
structure GenericGuildMessage where
  MessageID : Snowflake
  Message : Message
  ChannelID : Snowflake
  GuildID : Snowflake
deriving DecidableEq, Repr

/-- The zero AllowedMentions: nothing is parsed, nobody is pinged. -/
structure AllowedMentions where
  Parse : List String := []
  Roles : List Snowflake := []
  Users : List Snowflake := []
  RepliedUser : Bool := false
deriving DecidableEq, Repr

structure MessageReference where
  MessageID : Option Snowflake := none
deriving DecidableEq, Repr

structure MessageCreate where
  Embeds : List Embed := []
  MessageReference : Option MessageReference := none
  AllowedMentions : Option AllowedMentions := none
deriving DecidableEq, Repr

structure MessageUpdate where
  Flags : Option Nat := none
deriving DecidableEq, Repr

/-- Bit 2 of the message flags. -/
def MessageFlagSuppressEmbeds : Nat := 4

/-- The message-update builder call SetSuppressEmbeds: allocates the flags when
nil, then adds or removes the suppress-embeds bit. -/
def SetSuppressEmbeds (b : MessageUpdate) (suppressEmbeds : Bool) : MessageUpdate :=
  let flags := b.Flags.getD 0
  if suppressEmbeds then { b with Flags := some (flags ||| MessageFlagSuppressEmbeds) }
  else { b with Flags := some (flags &&& (flags ^^^ MessageFlagSuppressEmbeds)) }

/-- A permission set is a bit mask. -/
abbrev Permissions := Nat

/-- Bit 11 of the mask, the permission to send messages. -/
def PermissionSendMessages : Permissions := 2048

/-- All of `bits` are in `p`. -/
def Permissions.Has (p bits : Permissions) : Bool := (p &&& bits) == bits

/-- Some of `bits` is not in `p`. -/
def Permissions.Missing (p bits : Permissions) : Bool := !(Permissions.Has p bits)

/-! ## The correction record -/

structure BrandingTitle where
  Title : String
deriving DecidableEq, Repr

structure BrandingThumbnail where
  Timestamp : Float64
  Original : Bool
deriving DecidableEq, Repr

/-- The type BrandingResponse of bot.go. -/
structure BrandingResponse where
  Titles : List BrandingTitle
  Thumbnails : List BrandingThumbnail
  RandomTime : Float64
  VideoDuration : Option Float64
deriving DecidableEq, Repr

/-! ## Collaborators -/

/-- The part of a parsed URL the handler reads. -/
structure URL where
  RawQuery : String
deriving DecidableEq, Repr

/-- The map url.Values: a key that is absent maps to the empty list. -/
abbrev Values := String → List String

/-- The method Get of url.Values: the first value of the key, or "". -/
def Values.Get (v : Values) (key : String) : String :=
  match v key with
  | [] => ""
  | x :: _ => x

structure Response where
  StatusCode : Nat
  Body : String
deriving DecidableEq, Repr

/-- The part of a cached guild channel the permission computation reads. -/
structure GuildChannel where
  ID : Snowflake
  GuildID : Snowflake
deriving DecidableEq, Repr

/-- The part of a guild member the permission computation reads; the default
is the zero Member. -/
structure Member where
  UserID : Snowflake := 0
  GuildID : Snowflake := 0
  RoleIDs : List Snowflake := []
deriving DecidableEq, Repr

/-- The answers of the collaborators of the handler.  `Channel` and
`SelfMember` are the cache lookups, `none` when the second result (the ok flag)
is false: the channel returned is then the nil interface and the member the
zero Member.  An `Except.error` is a call that returned a non-nil error;
`urlParse` gives `none` when url.Parse returns an error, the URL pointer it
returns being nil then. -/
structure World where
  Channel : Snowflake → Option GuildChannel
  SelfMember : Snowflake → Option Member
  MemberPermissionsInChannel : GuildChannel → Member → Permissions
  urlParse : String → Option URL
  Query : URL → Values
  httpGet : String → Except String Response
  jsonDecode : String → Except String BrandingResponse
  CreateMessage : Snowflake → MessageCreate → Except String Unit
  UpdateMessage : Snowflake → Snowflake → MessageUpdate → Except String Unit

/-- An effect of the handler on the outside. -/
inductive Action where
  | httpGet (path : String)
  | closeBody
  | logError (message : String)
  | createMessage (channelID : Snowflake) (messageCreate : MessageCreate)
  | updateMessage (channelID messageID : Snowflake) (messageUpdate : MessageUpdate)
deriving DecidableEq, Repr

/-- How a call of the handler ends. -/
inductive Outcome where
  | returned
  | nilDereference
deriving DecidableEq, Repr

/-- The effects of one call of the handler, in order, and its end. -/
structure Run where
  trace : List Action
  outcome : Outcome
deriving DecidableEq, Repr

/-! ## replaceYouTubeEmbed -/

/-- The test of the scan loop on one embed (line 80). -/
def isYouTube (e : Embed) : Bool :=
  match e.Provider with
  | none => false
  | some provider => provider.Name == "YouTube"

/-- The scan loop, lines 77 to 85: `some` is the value of the variable embed
after the loop, `none` is the return inside the loop body.  The body ends in
break or in return, so no second iteration starts. -/
def scanEmbeds : List Embed → Option Embed
  | [] => some {}
  | e :: _ => if isYouTube e then some e else none

/-- Lines 117 to 121, the else branch of the thumbnail choice: a frame at the
random fraction of the duration when the duration is there and is not zero. -/
def fallbackThumbnailURL (thumbnailURL videoID : String) (brandingResponse : BrandingResponse) :
    String :=
  match brandingResponse.VideoDuration with
  | some duration =>
    if Float64.ne duration (Float64.zero false) then
      formatThumbnailURL videoID (Float64.mul brandingResponse.RandomTime duration)
    else thumbnailURL
  | none => thumbnailURL

/-- The choice of the image URL, lines 104 and 114 to 122. -/
def chooseThumbnailURL (thumbnailURL videoID : String) (brandingResponse : BrandingResponse) :
    String :=
  let thumbnails := brandingResponse.Thumbnails
  match thumbnails.head? with
  | some t0 =>
    if !t0.Original then formatThumbnailURL videoID t0.Timestamp
    else fallbackThumbnailURL thumbnailURL videoID brandingResponse
  | none => fallbackThumbnailURL thumbnailURL videoID brandingResponse

/-- Lines 100 to 123: the replacement embed, or `none` when a nil Thumbnail or
a nil Author is dereferenced (lines 104 and 107). -/
def replacementEmbed (embed : Embed) (videoID : String) (brandingResponse : BrandingResponse) :
    Option Embed :=
  let author := embed.Author
  let titles := brandingResponse.Titles
  let title := embed.Title
  match embed.Thumbnail with
  | none => none
  | some thumbnail =>
    let thumbnailURL := thumbnail.URL
    let embedBuilder := EmbedBuilder.NewEmbedBuilder
    let embedBuilder := EmbedBuilder.SetColor embedBuilder embed.Color
    match author with
    | none => none
    | some author =>
      let embedBuilder := EmbedBuilder.SetAuthor embedBuilder author.Name author.URL author.IconURL
      let embedBuilder := EmbedBuilder.SetURL embedBuilder embed.URL
      let titled : String × Embed :=
        match titles with
        | t0 :: _ =>
          (t0.Title, EmbedBuilder.SetFooterText embedBuilder ("Original title: " ++ embed.Title))
        | [] => (title, embedBuilder)
      let embedBuilder := EmbedBuilder.SetTitle titled.2 titled.1
      let thumbnailURL := chooseThumbnailURL thumbnailURL videoID brandingResponse
      some (EmbedBuilder.SetImage embedBuilder thumbnailURL)

/-- Lines 127 to 131, the message built for the reply: the replacement embed
alone, a reference to the original message, and the zero AllowedMentions. -/
def replyMessage (messageID : Snowflake) (replacement : Embed) : MessageCreate :=
  { Embeds := [replacement],
    MessageReference := some { MessageID := some messageID },
    AllowedMentions := some {} }

/-- Lines 136 to 138, the update built for the original message. -/
def suppressUpdate : MessageUpdate := SetSuppressEmbeds {} true

/-- Lines 124 to 141: the two outbound calls. -/
def sendReplacement (w : World) (event : GenericGuildMessage) (replacement : Embed) : Run :=
  let channelID := event.ChannelID
  let messageID := event.MessageID
  let messageCreate := replyMessage messageID replacement
  match w.CreateMessage channelID messageCreate with
  | Except.error _ =>
    ⟨[Action.createMessage channelID messageCreate,
      Action.logError "there was an error while creating a message: "], Outcome.returned⟩
  | Except.ok _ =>
    let messageUpdate := suppressUpdate
    match w.UpdateMessage channelID messageID messageUpdate with
    | Except.error _ =>
      ⟨[Action.createMessage channelID messageCreate,
        Action.updateMessage channelID messageID messageUpdate,
        Action.logError "there was an error while suppressing embeds: "], Outcome.returned⟩
    | Except.ok _ =>
      ⟨[Action.createMessage channelID messageCreate,
        Action.updateMessage channelID messageID messageUpdate], Outcome.returned⟩

/-- Lines 95 to 141, the part of the handler that runs with the response body
open; the deferred close of the body is added by the caller. -/
def withResponse (w : World) (event : GenericGuildMessage) (embed : Embed)
    (videoID : String) (rs : Response) : Run :=
  match w.jsonDecode rs.Body with
  | Except.error _ =>
    ⟨[Action.logError "there was an error while decoding a branding response (%d %s): "],
      Outcome.returned⟩
  | Except.ok brandingResponse =>
    match replacementEmbed embed videoID brandingResponse with
    | none => ⟨[], Outcome.nilDereference⟩
    | some replacement => sendReplacement w event replacement

/-- Line 87: the value of the query parameter v of the parsed URL. -/
def extractVideoID (w : World) (u : URL) : String := Values.Get (w.Query u) "v"

/-- Line 88: the address of the correction record. -/
def brandingPath (videoID : String) : String := Sprintf dearrowApiURL [Arg.str videoID]

/-- Lines 64 to 68: the permissions of the bot in the channel of the event.
Both ok flags are discarded.  A channel that is not cached is the nil
interface, and MemberPermissionsInChannel calls a method on it: `none` is that
nil dereference.  A self member that is not cached is the zero Member. -/
def lookupPermissions (w : World) (event : GenericGuildMessage) : Option Permissions :=
  match w.Channel event.ChannelID with
  | none => none
  | some channel =>
    let selfMember := (w.SelfMember event.GuildID).getD {}
    some (w.MemberPermissionsInChannel channel selfMember)

/-- The function replaceYouTubeEmbed of bot.go. -/
def replaceYouTubeEmbed (w : World) (event : GenericGuildMessage) : Run :=
  match lookupPermissions w event with
  | none => ⟨[], Outcome.nilDereference⟩
  | some permissions =>
    if Permissions.Missing permissions PermissionSendMessages then ⟨[], Outcome.returned⟩
    else
      let embeds := event.Message.Embeds
      if embeds.length = 0 then ⟨[], Outcome.returned⟩
      else
        match scanEmbeds embeds with
        | none => ⟨[], Outcome.returned⟩
        | some embed =>
          match w.urlParse embed.URL with
          | none => ⟨[], Outcome.nilDereference⟩
          | some u =>
            let videoID := extractVideoID w u
            let path := brandingPath videoID
            match w.httpGet path with
            | Except.error _ =>
              ⟨[Action.httpGet path,
                Action.logError "there was an error while running a branding request (%s): "],
                Outcome.returned⟩
            | Except.ok rs =>
              let r := withResponse w event embed videoID rs
              ⟨Action.httpGet path :: r.trace ++ [Action.closeBody], r.outcome⟩

/-! ## Reading a trace -/

def Action.isLog : Action → Bool
  | Action.logError _ => true
  | _ => false

def Action.isCreate : Action → Bool
  | Action.createMessage _ _ => true
  | _ => false

def Action.isUpdate : Action → Bool
  | Action.updateMessage _ _ _ => true
  | _ => false

/-- The calls of the REST client in a trace, in order. -/
def outbound (trace : List Action) : List Action :=
  trace.filter (fun a => a.isCreate || a.isUpdate)

/-- The permission check of line 69 on the permissions looked up: `some true`
when send-messages is missing, `some false` when it is held, `none` when the
lookup dereferenced the nil channel. -/
def missingSendMessages (w : World) (event : GenericGuildMessage) : Option Bool :=
  (lookupPermissions w event).map (fun p => Permissions.Missing p PermissionSendMessages)

/-- The eligibility gate of the handler lets the event through, with `e` as the
source embed: the permission is held and the first embed is a YouTube one. -/
structure Eligible (w : World) (event : GenericGuildMessage) (e : Embed) : Prop where
  permitted : missingSendMessages w event = some false
  first : event.Message.Embeds.head? = some e
  youTube : isYouTube e = true

/-- A decimal numeral in fixed-point form: an optional minus sign, at least one
digit, the point, and exactly six digits. -/
def IsFixed6 (s : String) : Prop :=
  ∃ sg ip fp : List Char, s.data = sg ++ ip ++ '.' :: fp ∧ (sg = [] ∨ sg = ['-']) ∧
    ip ≠ [] ∧ (∀ c ∈ ip, c.isDigit = true) ∧ fp.length = 6 ∧ ∀ c ∈ fp, c.isDigit = true

/-! ## A test double

A substitutable fake of the collaborators, for running the handler on concrete
events.  Its URL parser follows url.Parse in what it rejects here (a control
character, a missing protocol scheme) and in where it cuts the query, and
leaves host, path and fragment unchecked; its query reader splits on `&` and
`=` and decodes no escapes. -/

namespace Fake

/-- The text before the first `sep` and the text after it. -/
def cut (sep : Char) : List Char → List Char × List Char
  | [] => ([], [])
  | c :: cs => if c = sep then ([], cs) else ((cut sep cs).1.cons c, (cut sep cs).2)

/-- The pieces between the occurrences of `sep`. -/
def splitOn (sep : Char) : List Char → List (List Char)
  | [] => [[]]
  | c :: cs =>
    if c = sep then [] :: splitOn sep cs
    else
      match splitOn sep cs with
      | [] => [[c]]
      | p :: ps => (c :: p) :: ps

/-- The scheme scan of net/url: `none` is the error "missing protocol scheme",
otherwise the scheme and the rest. -/
def getScheme (rawURL : List Char) : Nat → List Char → List Char → Option (List Char × List Char)
  | _, [], _ => some ([], rawURL)
  | i, c :: cs, acc =>
    if c.isAlpha then getScheme rawURL (i + 1) cs (c :: acc)
    else if c.isDigit || c = '+' || c = '-' || c = '.' then
      if i = 0 then some ([], rawURL) else getScheme rawURL (i + 1) cs (c :: acc)
    else if c = ':' then
      if i = 0 then none else some (acc.reverse, cs)
    else some ([], rawURL)

def isCTL (c : Char) : Bool := c.toNat < 32 || c.toNat == 127

def parse (rawURL : String) : Option URL :=
  let u := (cut '#' rawURL.data).1
  if u.any isCTL then none
  else
    match getScheme u 0 u [] with
    | none => none
    | some (_, rest) => some { RawQuery := String.mk (cut '?' rest).2 }

def query (u : URL) : Values := fun key =>
  ((splitOn '&' u.RawQuery.data).filter (fun kv => decide ((cut '=' kv).1 = key.data))).map
    (fun kv => String.mk (cut '=' kv).2)

/-- The record of a video with one submitted title, no submitted thumbnail and
no known duration. -/
def betterTitle : BrandingResponse :=
  { Titles := [{ Title := "Better Title" }], Thumbnails := [],
    RandomTime := Float64.round false 1 (-1), VideoDuration := none }

/-- The record of a video with a submitted thumbnail at 42 seconds. -/
def frameAt42 : BrandingResponse :=
  { Titles := [], Thumbnails := [{ Timestamp := Float64.ofNat 42, Original := false }],
    RandomTime := Float64.round false 1 (-1), VideoDuration := some (Float64.ofNat 600) }

/-- The record of a video of 600 seconds with no submission; random time 0.5. -/
def noSubmission : BrandingResponse :=
  { Titles := [], Thumbnails := [],
    RandomTime := Float64.round false 1 (-1), VideoDuration := some (Float64.ofNat 600) }

/-- A decoder that knows three bodies by name and rejects every other one. -/
def decode (body : String) : Except String BrandingResponse :=
  if body = "better-title" then Except.ok betterTitle
  else if body = "frame-at-42" then Except.ok frameAt42
  else if body = "no-submission" then Except.ok noSubmission
  else Except.error "invalid character"

/-- A world in which the permission is held and every call succeeds. -/
def world : World :=
  { Channel := fun id => some { ID := id, GuildID := 3003 },
    SelfMember := fun guildID => some { UserID := 4004, GuildID := guildID },
    MemberPermissionsInChannel := fun _ _ => 3072,
    urlParse := parse,
    Query := query,
    httpGet := fun _ => Except.ok { StatusCode := 200, Body := "better-title" },
    jsonDecode := decode,
    CreateMessage := fun _ _ => Except.ok (),
    UpdateMessage := fun _ _ _ => Except.ok () }

/-- The world in which the channel of the event is not in the cache. -/
def uncached : World :=
  { world with Channel := fun _ => none }

/-- The world in which the bot may read the channel and not write to it. -/
def readOnly : World :=
  { world with MemberPermissionsInChannel := fun _ _ => 1024 }

/-- The world in which the GET of the correction record fails. -/
def fetchFails : World :=
  { world with httpGet := fun _ => Except.error "dial tcp: i/o timeout" }

/-- The world in which the body of the response is not a correction record. -/
def badBody : World :=
  { world with httpGet := fun _ => Except.ok { StatusCode := 502, Body := "<html>" } }

/-- The world in which create-message is refused. -/
def createFails : World :=
  { world with CreateMessage := fun _ _ => Except.error "403 Forbidden" }

/-- The world in which create-message succeeds and update-message is refused. -/
def updateFails : World :=
  { world with UpdateMessage := fun _ _ _ => Except.error "403 Forbidden" }

/-- The embed Discord attaches to a link to a YouTube video. -/
def youTubeEmbed : Embed :=
  { Title := "YOU WILL NOT BELIEVE THIS",
    URL := "https://www.youtube.com/watch?v=dQw4w9WgXcQ",
    Color := 16711680,
    Thumbnail := some { URL := "https://i.ytimg.com/vi/dQw4w9WgXcQ/maxresdefault.jpg" },
    Provider := some { Name := "YouTube", URL := "https://www.youtube.com" },
    Author := some { Name := "Some Channel", URL := "https://www.youtube.com/@some",
                     IconURL := "" } }

/-- An embed of another site. -/
def otherEmbed : Embed :=
  { Title := "A page", URL := "https://example.org/", Provider := some { Name := "Example" } }

def event (embeds : List Embed) : GenericGuildMessage :=
  { MessageID := 1001, Message := { Embeds := embeds }, ChannelID := 2002, GuildID := 3003 }

end Fake

/-! ## Lemmas on the model -/

theorem isYouTube_iff (e : Embed) :
    isYouTube e = true ↔ ∃ p, e.Provider = some p ∧ p.Name = "YouTube" := by
  unfold isYouTube
  cases h : e.Provider with
  | none => simp
  | some p => simp

/-- Comparing with the constant 0 is the zero test: both zeros equal it, and a
NaN differs from it. -/
theorem Float64.ne_zero_eq (d : Float64) : Float64.ne d (Float64.zero false) = !d.isZero := by
  obtain ⟨s, ⟨e, he⟩, ⟨f, hf⟩⟩ := d
  by_cases h0 : e = 0 <;> by_cases h1 : f = 0 <;> by_cases h2 : e = 2047 <;>
    simp_all [Float64.ne, Float64.eq, Float64.isNaN, Float64.isZero, Float64.zero, Fin.ext_iff]
  right
  decide

theorem brandingPath_eq (videoID : String) :
    brandingPath videoID = "https://sponsor.ajay.app/api/branding?videoID=" ++ videoID := by
  apply String.ext
  simp [brandingPath, dearrowApiURL, Sprintf, sprintfAux]

theorem formatThumbnailURL_eq (videoID : String) (t : Float64) :
    formatThumbnailURL videoID t =
      "https://dearrow-thumb.ajay.app/api/v1/getThumbnail?videoID=" ++ videoID ++ "&time="
        ++ Float64.fmtF t ++ "&generateNow=true" := by
  apply String.ext
  simp [formatThumbnailURL, dearrowThumbnailApiURL, Sprintf, sprintfAux]

theorem missingSendMessages_eq_some (w : World) (event : GenericGuildMessage) (b : Bool) :
    missingSendMessages w event = some b ↔
      ∃ p, lookupPermissions w event = some p ∧
        Permissions.Missing p PermissionSendMessages = b := by
  unfold missingSendMessages
  cases lookupPermissions w event <;> simp

/-- The run of the handler on an event that passes the gate, up to the fetch. -/
theorem run_of_eligible (w : World) (event : GenericGuildMessage) (e : Embed)
    (h : Eligible w event e) :
    replaceYouTubeEmbed w event =
      match w.urlParse e.URL with
      | none => ⟨[], Outcome.nilDereference⟩
      | some u =>
        match w.httpGet (brandingPath (extractVideoID w u)) with
        | Except.error _ =>
          ⟨[Action.httpGet (brandingPath (extractVideoID w u)),
            Action.logError "there was an error while running a branding request (%s): "],
            Outcome.returned⟩
        | Except.ok rs =>
          ⟨Action.httpGet (brandingPath (extractVideoID w u)) ::
              (withResponse w event e (extractVideoID w u) rs).trace ++ [Action.closeBody],
            (withResponse w event e (extractVideoID w u) rs).outcome⟩ := by
  obtain ⟨hp, hf, hy⟩ := h
  obtain ⟨p, hlp, hm⟩ := (missingSendMessages_eq_some w event false).1 hp
  cases hemb : event.Message.Embeds with
  | nil => simp [hemb] at hf
  | cons e0 rest =>
    simp only [hemb, List.head?_cons, Option.some.injEq] at hf
    subst hf
    simp [replaceYouTubeEmbed, hlp, hm, hemb, scanEmbeds, hy]

/-- The run of the handler once the correction record is decoded. -/
theorem run_of_record (w : World) (event : GenericGuildMessage) (e : Embed) (u : URL)
    (rs : Response) (br : BrandingResponse) (h : Eligible w event e)
    (hparse : w.urlParse e.URL = some u)
    (hget : w.httpGet (brandingPath (extractVideoID w u)) = Except.ok rs)
    (hdec : w.jsonDecode rs.Body = Except.ok br) :
    replaceYouTubeEmbed w event =
      match replacementEmbed e (extractVideoID w u) br with
      | none =>
        ⟨[Action.httpGet (brandingPath (extractVideoID w u)), Action.closeBody],
          Outcome.nilDereference⟩
      | some r =>
        ⟨Action.httpGet (brandingPath (extractVideoID w u)) ::
            (sendReplacement w event r).trace ++ [Action.closeBody],
          (sendReplacement w event r).outcome⟩ := by
  rw [run_of_eligible w event e h]
  simp only [hparse, hget, withResponse, hdec]
  cases replacementEmbed e (extractVideoID w u) br <;> simp

/-- The number of create-message calls in any run is at most one, and a run
with one has passed the gate. -/
theorem create_count_cases (w : World) (event : GenericGuildMessage) :
    List.countP Action.isCreate (replaceYouTubeEmbed w event).trace = 0 ∨
      (List.countP Action.isCreate (replaceYouTubeEmbed w event).trace = 1 ∧
        ∃ e, Eligible w event e) := by
  cases hlp : lookupPermissions w event with
  | none => left; simp [replaceYouTubeEmbed, hlp]
  | some p =>
  by_cases hp : Permissions.Missing p PermissionSendMessages = true
  · left; simp [replaceYouTubeEmbed, hlp, hp]
  · cases hemb : event.Message.Embeds with
    | nil => left; simp [replaceYouTubeEmbed, hlp, hemb]
    | cons e rest =>
      by_cases hy : isYouTube e = true
      · have hel : Eligible w event e :=
          ⟨(missingSendMessages_eq_some w event false).2 ⟨p, hlp, by simpa using hp⟩,
            by simp [hemb], hy⟩
        rw [run_of_eligible w event e hel]
        cases hparse : w.urlParse e.URL with
        | none => left; simp
        | some u =>
          cases hget : w.httpGet (brandingPath (extractVideoID w u)) with
          | error err => left; simp [hget, Action.isCreate]
          | ok rs =>
            cases hdec : w.jsonDecode rs.Body with
            | error err => left; simp [hget, withResponse, hdec, Action.isCreate]
            | ok br =>
              cases hrep : replacementEmbed e (extractVideoID w u) br with
              | none => left; simp [hget, withResponse, hdec, hrep, Action.isCreate]
              | some r =>
                right
                refine ⟨?_, e, hel⟩
                cases hc : w.CreateMessage event.ChannelID (replyMessage event.MessageID r) with
                | error err =>
                  simp [hget, withResponse, hdec, hrep, sendReplacement, hc, Action.isCreate,
                    List.countP_cons]
                | ok x =>
                  cases hu : w.UpdateMessage event.ChannelID event.MessageID suppressUpdate with
                  | error err =>
                    simp [hget, withResponse, hdec, hrep, sendReplacement, hc, hu, Action.isCreate,
                      List.countP_cons]
                  | ok y =>
                    simp [hget, withResponse, hdec, hrep, sendReplacement, hc, hu, Action.isCreate,
                      List.countP_cons]
      · left; simp [replaceYouTubeEmbed, hlp, hp, hemb, scanEmbeds, hy]

/-! ### The digits of `%f` -/

theorem Float64.digitChar_isDigit (n : Nat) : (Float64.digitChar n).isDigit = true := by
  have h : n % 10 < 10 := Nat.mod_lt _ (by decide)
  unfold Float64.digitChar
  generalize n % 10 = k at h ⊢
  interval_cases k <;> decide

theorem natDigitChar_isDigit (d : Nat) (h : d < 10) : (Nat.digitChar d).isDigit = true := by
  interval_cases d <;> decide

theorem toDigitsCore_isDigit (fuel : Nat) : ∀ (n : Nat) (acc : List Char),
    (∀ c ∈ acc, c.isDigit = true) → ∀ c ∈ Nat.toDigitsCore 10 fuel n acc, c.isDigit = true := by
  induction fuel with
  | zero => intro n acc hacc; simpa [Nat.toDigitsCore] using hacc
  | succ fuel ih =>
    intro n acc hacc
    have hd : (Nat.digitChar (n % 10)).isDigit = true :=
      natDigitChar_isDigit _ (Nat.mod_lt _ (by decide))
    have hacc2 : ∀ c ∈ Nat.digitChar (n % 10) :: acc, c.isDigit = true := by
      intro c hc
      rcases List.mem_cons.1 hc with h | h
      · rw [h]; exact hd
      · exact hacc c h
    simp only [Nat.toDigitsCore]
    split
    · exact hacc2
    · exact ih _ _ hacc2

theorem toDigitsCore_ne_nil (fuel : Nat) : ∀ (n : Nat) (acc : List Char),
    acc ≠ [] → Nat.toDigitsCore 10 fuel n acc ≠ [] := by
  induction fuel with
  | zero => intro n acc hacc; simpa [Nat.toDigitsCore] using hacc
  | succ fuel ih =>
    intro n acc _
    simp only [Nat.toDigitsCore]
    split
    · simp
    · exact ih _ _ (by simp)

theorem repr_data_isDigit (n : Nat) : ∀ c ∈ (Nat.repr n).data, c.isDigit = true := by
  simp only [Nat.repr, List.asString, Nat.toDigits]
  exact toDigitsCore_isDigit _ _ _ (by simp)

theorem repr_data_ne_nil (n : Nat) : (Nat.repr n).data ≠ [] := by
  simp only [Nat.repr, List.asString, Nat.toDigits, Nat.toDigitsCore]
  split
  · simp
  · exact toDigitsCore_ne_nil _ _ _ (by simp)

theorem Float64.fmtF_of_finite (t : Float64) (h : t.isFinite = true) :
    IsFixed6 (Float64.fmtF t) := by
  have h1 : t.isNaN = false := by
    simp [Float64.isFinite] at h
    simp [Float64.isNaN, h]
  have h2 : t.isInf = false := by
    simp [Float64.isFinite] at h
    simp [Float64.isInf, h]
  refine ⟨(if t.sign then ['-'] else []), (Nat.repr (Float64.scaled6 t / 1000000)).data,
    Float64.fracDigits (Float64.scaled6 t % 1000000), ?_, ?_, repr_data_ne_nil _,
    repr_data_isDigit _, by simp [Float64.fracDigits], ?_⟩
  · cases hs : t.sign <;> simp [Float64.fmtF, h1, h2, hs]
  · cases t.sign <;> simp
  · intro c hc
    simp only [Float64.fracDigits, List.mem_cons, List.mem_singleton, List.not_mem_nil,
      or_false] at hc
    rcases hc with h | h | h | h | h | h <;> rw [h] <;> exact Float64.digitChar_isDigit _

theorem Float64.fmtF_of_not_finite (t : Float64) (h : t.isFinite = false) :
    Float64.fmtF t = "NaN" ∨ Float64.fmtF t = "+Inf" ∨ Float64.fmtF t = "-Inf" := by
  simp [Float64.isFinite] at h
  by_cases hf : t.frac.val = 0
  · right
    cases hs : t.sign <;> simp [Float64.fmtF, Float64.isNaN, Float64.isInf, h, hf, hs]
  · left
    simp [Float64.fmtF, Float64.isNaN, h, hf]

/-! ## Replacement synthesis -/

/-- C1: for a source embed with an author block and a thumbnail, and any
correction record, a replacement embed is built; with a non-empty title list
its title is the first entry and its footer text is "Original title: " followed
by the source title; with an empty title list the title is the source title and
there is no footer; color, author (name, url, icon) and URL are those of the
source embed. -/
theorem replacementEmbed_title_footer (embed : Embed) (videoID : String)
    (br : BrandingResponse) (a : EmbedAuthor) (t : EmbedResource)
    (ha : embed.Author = some a) (ht : embed.Thumbnail = some t) :
    ∃ r, replacementEmbed embed videoID br = some r ∧
      (∀ t0 rest, br.Titles = t0 :: rest →
        r.Title = t0.Title ∧
          r.Footer.map EmbedFooter.Text = some ("Original title: " ++ embed.Title)) ∧
      (br.Titles = [] → r.Title = embed.Title ∧ r.Footer = none) ∧
      r.Color = embed.Color ∧
      r.Author.map (fun x => (x.Name, x.URL, x.IconURL)) = some (a.Name, a.URL, a.IconURL) ∧
      r.URL = embed.URL := by
  cases hti : br.Titles with
  | nil =>
    simp [replacementEmbed, ha, ht, hti, EmbedBuilder.NewEmbedBuilder, EmbedBuilder.SetColor,
      EmbedBuilder.SetAuthor, EmbedBuilder.SetURL, EmbedBuilder.SetTitle, EmbedBuilder.SetImage]
  | cons t0 rest =>
    simp [replacementEmbed, ha, ht, hti, EmbedBuilder.NewEmbedBuilder, EmbedBuilder.SetColor,
      EmbedBuilder.SetAuthor, EmbedBuilder.SetURL, EmbedBuilder.SetTitle, EmbedBuilder.SetImage,
      EmbedBuilder.SetFooterText]

theorem replacementEmbed_title_footer_witness :
    ∃ r, replacementEmbed Fake.youTubeEmbed "dQw4w9WgXcQ" Fake.betterTitle = some r ∧
      r.Title = "Better Title" ∧
      r.Footer.map EmbedFooter.Text = some "Original title: YOU WILL NOT BELIEVE THIS" ∧
      r.Color = 16711680 := by
  obtain ⟨r, hr, h1, _, h3, _⟩ :=
    replacementEmbed_title_footer Fake.youTubeEmbed "dQw4w9WgXcQ" Fake.betterTitle
      { Name := "Some Channel", URL := "https://www.youtube.com/@some", IconURL := "" }
      { URL := "https://i.ytimg.com/vi/dQw4w9WgXcQ/maxresdefault.jpg" } rfl rfl
  exact ⟨r, hr, (h1 _ _ rfl).1, (h1 _ _ rfl).2, h3⟩

/-- C2: for a source embed with a thumbnail, the image URL of the replacement
embed is (1) formatThumbnailURL at the first thumbnail entry when the list is
non-empty and that entry is not flagged original; (2) otherwise, with a
duration that is present and not zero, formatThumbnailURL at randomTime times
the duration; (3) otherwise the thumbnail URL of the source embed.  The entries
after the first do not matter.  The replacement embed exists when the source
embed has an author block too. -/
theorem replacementEmbed_image (embed : Embed) (videoID : String) (br : BrandingResponse)
    (t : EmbedResource) (ht : embed.Thumbnail = some t) :
    (embed.Author ≠ none → ∃ r, replacementEmbed embed videoID br = some r) ∧
    (∀ r, replacementEmbed embed videoID br = some r →
      ∃ img, r.Image = some img ∧
        (∀ t0 rest, br.Thumbnails = t0 :: rest → t0.Original = false →
          img.URL = formatThumbnailURL videoID t0.Timestamp) ∧
        (∀ d, (br.Thumbnails = [] ∨ ∃ t0 rest, br.Thumbnails = t0 :: rest ∧ t0.Original = true) →
          br.VideoDuration = some d → d.isZero = false →
          img.URL = formatThumbnailURL videoID (Float64.mul br.RandomTime d)) ∧
        ((br.Thumbnails = [] ∨ ∃ t0 rest, br.Thumbnails = t0 :: rest ∧ t0.Original = true) →
          (br.VideoDuration = none ∨ ∃ d, br.VideoDuration = some d ∧ d.isZero = true) →
          img.URL = t.URL)) ∧
    (∀ t0 rest rest2, br.Thumbnails = t0 :: rest →
      replacementEmbed embed videoID { br with Thumbnails := t0 :: rest2 } =
        replacementEmbed embed videoID br) := by
  refine ⟨?_, ?_, ?_⟩
  · intro hau
    cases hA : embed.Author with
    | none => exact absurd hA hau
    | some a => simp [replacementEmbed, ht, hA]
  · intro r hr
    cases hA : embed.Author with
    | none => simp [replacementEmbed, ht, hA] at hr
    | some a =>
      simp only [replacementEmbed, ht, hA, Option.some.injEq] at hr
      subst hr
      refine ⟨⟨chooseThumbnailURL t.URL videoID br, ""⟩, ?_, ?_, ?_, ?_⟩
      · cases br.Titles <;>
          simp [EmbedBuilder.NewEmbedBuilder, EmbedBuilder.SetColor, EmbedBuilder.SetAuthor,
            EmbedBuilder.SetURL, EmbedBuilder.SetTitle, EmbedBuilder.SetImage,
            EmbedBuilder.SetFooterText]
      · intro t0 rest h0 ho
        simp [chooseThumbnailURL, h0, ho]
      · intro d hth hd hz
        have hfb : fallbackThumbnailURL t.URL videoID br =
            formatThumbnailURL videoID (Float64.mul br.RandomTime d) := by
          simp [fallbackThumbnailURL, hd, Float64.ne_zero_eq, hz]
        rcases hth with h0 | ⟨t0, rest, h0, ho⟩
        · simp [chooseThumbnailURL, h0, hfb]
        · simp [chooseThumbnailURL, h0, ho, hfb]
      · intro hth hd
        have hfb : fallbackThumbnailURL t.URL videoID br = t.URL := by
          rcases hd with hd | ⟨d, hd, hz⟩
          · simp [fallbackThumbnailURL, hd]
          · simp [fallbackThumbnailURL, hd, Float64.ne_zero_eq, hz]
        rcases hth with h0 | ⟨t0, rest, h0, ho⟩
        · simp [chooseThumbnailURL, h0, hfb]
        · simp [chooseThumbnailURL, h0, ho, hfb]
  · intro t0 rest rest2 h0
    simp [replacementEmbed, chooseThumbnailURL, fallbackThumbnailURL, h0]

theorem replacementEmbed_image_witness :
    ∃ r, replacementEmbed Fake.youTubeEmbed "dQw4w9WgXcQ" Fake.betterTitle = some r ∧
      r.Image.map EmbedResource.URL =
        some "https://i.ytimg.com/vi/dQw4w9WgXcQ/maxresdefault.jpg" := by
  have h := replacementEmbed_image Fake.youTubeEmbed "dQw4w9WgXcQ" Fake.betterTitle
    { URL := "https://i.ytimg.com/vi/dQw4w9WgXcQ/maxresdefault.jpg" } rfl
  obtain ⟨r, hr⟩ := h.1 (by decide)
  obtain ⟨img, himg, _, _, h3⟩ := h.2.1 r hr
  exact ⟨r, hr, by rw [himg, Option.map_some', h3 (Or.inl rfl) (Or.inl rfl)]⟩

/-! ## The eligibility gate -/

/-- C3: when the bot lacks the send-messages permission in the channel, or
the message has no embed, or the first embed has no provider or a provider
whose name is not "YouTube" (whatever the later embeds are), the trace of the
handler is empty: no fetch, no create-message, no update-message, no logged
error.  The handler returns when the channel of the event is in the cache; when
it is not, the permission lookup of line 68 dereferences the nil channel before
the embeds are looked at, and the trace is empty as well. -/
theorem ineligible_event_has_no_effect (w : World) (event : GenericGuildMessage)
    (h : missingSendMessages w event = some true ∨
        event.Message.Embeds = [] ∨
        ∃ e rest, event.Message.Embeds = e :: rest ∧
          (e.Provider = none ∨ ∃ p, e.Provider = some p ∧ p.Name ≠ "YouTube")) :
    (replaceYouTubeEmbed w event).trace = [] ∧
      (w.Channel event.ChannelID ≠ none →
        (replaceYouTubeEmbed w event).outcome = Outcome.returned) ∧
      (w.Channel event.ChannelID = none →
        (replaceYouTubeEmbed w event).outcome = Outcome.nilDereference) := by
  cases hch : w.Channel event.ChannelID with
  | none =>
    have hlp : lookupPermissions w event = none := by simp [lookupPermissions, hch]
    simp [replaceYouTubeEmbed, hlp]
  | some ch =>
    have hlp : lookupPermissions w event =
        some (w.MemberPermissionsInChannel ch ((w.SelfMember event.GuildID).getD {})) := by
      simp [lookupPermissions, hch]
    by_cases hm : Permissions.Missing
        (w.MemberPermissionsInChannel ch ((w.SelfMember event.GuildID).getD {}))
        PermissionSendMessages = true
    · simp [replaceYouTubeEmbed, hlp, hm]
    · rcases h with hp | hemb | ⟨e, rest, hemb, hprov⟩
      · obtain ⟨p, hlp2, hp2⟩ := (missingSendMessages_eq_some w event true).1 hp
        rw [hlp] at hlp2
        simp only [Option.some.injEq] at hlp2
        rw [hlp2] at hm
        exact absurd hp2 hm
      · simp [replaceYouTubeEmbed, hlp, hm, hemb]
      · have hy : isYouTube e = false := by
          rcases hprov with hn | ⟨p, hp, hne⟩
          · simp [isYouTube, hn]
          · simp [isYouTube, hp, hne]
        simp [replaceYouTubeEmbed, hlp, hm, hemb, scanEmbeds, hy]

theorem ineligible_event_has_no_effect_witness :
    ((replaceYouTubeEmbed Fake.world
          (Fake.event [Fake.otherEmbed, Fake.youTubeEmbed])).trace = [] ∧
        (replaceYouTubeEmbed Fake.world
          (Fake.event [Fake.otherEmbed, Fake.youTubeEmbed])).outcome = Outcome.returned) ∧
      ((replaceYouTubeEmbed Fake.readOnly (Fake.event [Fake.youTubeEmbed])).trace = [] ∧
        (replaceYouTubeEmbed Fake.readOnly (Fake.event [Fake.youTubeEmbed])).outcome =
          Outcome.returned) ∧
      ((replaceYouTubeEmbed Fake.uncached (Fake.event [])).trace = [] ∧
        (replaceYouTubeEmbed Fake.uncached (Fake.event [])).outcome =
          Outcome.nilDereference) := by
  have h1 := ineligible_event_has_no_effect Fake.world
    (Fake.event [Fake.otherEmbed, Fake.youTubeEmbed])
    (Or.inr (Or.inr ⟨Fake.otherEmbed, [Fake.youTubeEmbed], rfl,
      Or.inr ⟨{ Name := "Example" }, rfl, by decide⟩⟩))
  have h2 := ineligible_event_has_no_effect Fake.readOnly (Fake.event [Fake.youTubeEmbed])
    (Or.inl (by decide))
  have h3 := ineligible_event_has_no_effect Fake.uncached (Fake.event []) (Or.inr (Or.inl rfl))
  exact ⟨⟨h1.1, h1.2.1 (by decide)⟩, ⟨h2.1, h2.2.1 (by decide)⟩, ⟨h3.1, h3.2.2 (by decide)⟩⟩

/-- C4, as stated, fails: a message with two embeds that both have the provider
"YouTube" gets a replacement. -/
theorem two_youTube_embeds_get_a_replacement :
    List.countP isYouTube
        (Fake.event [Fake.youTubeEmbed, Fake.youTubeEmbed]).Message.Embeds = 2 ∧
      List.countP Action.isCreate
        (replaceYouTubeEmbed Fake.world
          (Fake.event [Fake.youTubeEmbed, Fake.youTubeEmbed])).trace = 1 := by
  decide

/-- C4, amended: a create-message action is issued at most once per event, and
only when the bot holds the send-messages permission and the first embed of the
message has the provider name "YouTube"; the embeds after the first are not
looked at, so the run on a message is the run on its first embed alone. -/
theorem create_at_most_once (w : World) (event : GenericGuildMessage) :
    List.countP Action.isCreate (replaceYouTubeEmbed w event).trace ≤ 1 ∧
    (1 ≤ List.countP Action.isCreate (replaceYouTubeEmbed w event).trace →
      missingSendMessages w event = some false ∧
        ∃ e p, event.Message.Embeds.head? = some e ∧ e.Provider = some p ∧
          p.Name = "YouTube") ∧
    (∀ e rest, event.Message.Embeds = e :: rest →
      replaceYouTubeEmbed w event =
        replaceYouTubeEmbed w { event with Message := { Embeds := [e] } }) := by
  refine ⟨?_, ?_, ?_⟩
  · rcases create_count_cases w event with h | ⟨h, _⟩ <;> omega
  · intro h1
    rcases create_count_cases w event with h | ⟨_, e, hel⟩
    · omega
    · obtain ⟨p, hp, hn⟩ := (isYouTube_iff e).1 hel.youTube
      exact ⟨hel.permitted, e, p, hel.first, hp, hn⟩
  · intro e rest hemb
    simp [replaceYouTubeEmbed, lookupPermissions, hemb, scanEmbeds, withResponse,
      sendReplacement]

theorem create_at_most_once_witness :
    List.countP Action.isCreate
        (replaceYouTubeEmbed Fake.world
          (Fake.event [Fake.youTubeEmbed, Fake.otherEmbed])).trace ≤ 1 ∧
      replaceYouTubeEmbed Fake.world (Fake.event [Fake.youTubeEmbed, Fake.otherEmbed]) =
        replaceYouTubeEmbed Fake.world (Fake.event [Fake.youTubeEmbed]) :=
  ⟨(create_at_most_once Fake.world (Fake.event [Fake.youTubeEmbed, Fake.otherEmbed])).1,
    (create_at_most_once Fake.world (Fake.event [Fake.youTubeEmbed, Fake.otherEmbed])).2.2
      Fake.youTubeEmbed [Fake.otherEmbed] rfl⟩

/-! ## The fetch and the two outbound calls -/

/-- C5, as stated, fails: when create-message fails the handler logs the error
and issues no update-message. -/
theorem failed_create_is_not_followed_by_update :
    (replaceYouTubeEmbed Fake.createFails (Fake.event [Fake.youTubeEmbed])).trace.map
      (fun a => (a.isCreate, a.isLog, a.isUpdate)) =
      [(false, false, false), (true, false, false), (false, true, false),
        (false, false, false)] := by
  decide

/-- C5, amended: on an eligible event whose correction record is decoded and
whose replacement embed is built, a create-message that fails is followed by
one logged error and the return of the handler; no update-message is issued. -/
theorem failed_create_ends_the_run (w : World) (event : GenericGuildMessage) (e : Embed)
    (u : URL) (rs : Response) (br : BrandingResponse) (r : Embed) (err : String)
    (h : Eligible w event e) (hparse : w.urlParse e.URL = some u)
    (hget : w.httpGet (brandingPath (extractVideoID w u)) = Except.ok rs)
    (hdec : w.jsonDecode rs.Body = Except.ok br)
    (hrep : replacementEmbed e (extractVideoID w u) br = some r)
    (hcreate : w.CreateMessage event.ChannelID (replyMessage event.MessageID r) =
      Except.error err) :
    replaceYouTubeEmbed w event =
        ⟨[Action.httpGet (brandingPath (extractVideoID w u)),
          Action.createMessage event.ChannelID (replyMessage event.MessageID r),
          Action.logError "there was an error while creating a message: ",
          Action.closeBody], Outcome.returned⟩ ∧
      List.countP Action.isUpdate (replaceYouTubeEmbed w event).trace = 0 := by
  have hrun := run_of_record w event e u rs br h hparse hget hdec
  simp only [hrep, sendReplacement, hcreate] at hrun
  rw [hrun]
  simp [Action.isUpdate]

theorem failed_create_ends_the_run_witness :
    List.countP Action.isUpdate
      (replaceYouTubeEmbed Fake.createFails (Fake.event [Fake.youTubeEmbed])).trace = 0 :=
  (failed_create_ends_the_run Fake.createFails (Fake.event [Fake.youTubeEmbed])
    Fake.youTubeEmbed { RawQuery := "v=dQw4w9WgXcQ" } { StatusCode := 200, Body := "better-title" }
    Fake.betterTitle
    { Title := "Better Title",
      URL := "https://www.youtube.com/watch?v=dQw4w9WgXcQ",
      Color := 16711680,
      Footer := some { Text := "Original title: YOU WILL NOT BELIEVE THIS" },
      Image := some { URL := "https://i.ytimg.com/vi/dQw4w9WgXcQ/maxresdefault.jpg" },
      Author := some { Name := "Some Channel", URL := "https://www.youtube.com/@some",
                       IconURL := "" } }
    "403 Forbidden" ⟨by decide, rfl, by decide⟩ (by decide) rfl rfl (by decide) rfl).2

/-- C6: on an eligible event, when the GET of the correction record returns an
error, or its body does not decode, the handler logs exactly one error, issues
no create-message and no update-message, and returns. -/
theorem failed_fetch_logs_once (w : World) (event : GenericGuildMessage) (e : Embed) (u : URL)
    (h : Eligible w event e) (hparse : w.urlParse e.URL = some u)
    (hfail : (∃ err, w.httpGet (brandingPath (extractVideoID w u)) = Except.error err) ∨
      ∃ rs err, w.httpGet (brandingPath (extractVideoID w u)) = Except.ok rs ∧
        w.jsonDecode rs.Body = Except.error err) :
    List.countP Action.isLog (replaceYouTubeEmbed w event).trace = 1 ∧
      List.countP Action.isCreate (replaceYouTubeEmbed w event).trace = 0 ∧
      List.countP Action.isUpdate (replaceYouTubeEmbed w event).trace = 0 ∧
      (replaceYouTubeEmbed w event).outcome = Outcome.returned := by
  rw [run_of_eligible w event e h]
  rcases hfail with ⟨err, hget⟩ | ⟨rs, err, hget, hdec⟩
  · simp [hparse, hget, Action.isLog, Action.isCreate, Action.isUpdate, List.countP_cons]
  · simp [hparse, hget, withResponse, hdec, Action.isLog, Action.isCreate, Action.isUpdate,
      List.countP_cons]

theorem failed_fetch_logs_once_witness :
    List.countP Action.isLog
        (replaceYouTubeEmbed Fake.fetchFails (Fake.event [Fake.youTubeEmbed])).trace = 1 ∧
      List.countP Action.isLog
        (replaceYouTubeEmbed Fake.badBody (Fake.event [Fake.youTubeEmbed])).trace = 1 :=
  ⟨(failed_fetch_logs_once Fake.fetchFails (Fake.event [Fake.youTubeEmbed]) Fake.youTubeEmbed
      { RawQuery := "v=dQw4w9WgXcQ" } ⟨by decide, rfl, by decide⟩ (by decide)
      (Or.inl ⟨"dial tcp: i/o timeout", rfl⟩)).1,
    (failed_fetch_logs_once Fake.badBody (Fake.event [Fake.youTubeEmbed]) Fake.youTubeEmbed
      { RawQuery := "v=dQw4w9WgXcQ" } ⟨by decide, rfl, by decide⟩ (by decide)
      (Or.inr ⟨{ StatusCode := 502, Body := "<html>" }, "invalid character", rfl, rfl⟩)).1⟩

/-- C7: on an eligible event whose correction record is decoded and whose
replacement embed is built, when create-message succeeds: if the update-message
fails, the trace after the fetch is one create-message, one update-message and
one logged error, and nothing else but the close of the response body; if it
succeeds, the REST calls are exactly create-message then update-message, on the
channel of the event and on the original message, with no logged error. -/
theorem reply_then_suppress (w : World) (event : GenericGuildMessage) (e : Embed)
    (u : URL) (rs : Response) (br : BrandingResponse) (r : Embed)
    (h : Eligible w event e) (hparse : w.urlParse e.URL = some u)
    (hget : w.httpGet (brandingPath (extractVideoID w u)) = Except.ok rs)
    (hdec : w.jsonDecode rs.Body = Except.ok br)
    (hrep : replacementEmbed e (extractVideoID w u) br = some r)
    (hcreate : w.CreateMessage event.ChannelID (replyMessage event.MessageID r) =
      Except.ok ()) :
    (∀ err, w.UpdateMessage event.ChannelID event.MessageID suppressUpdate = Except.error err →
      replaceYouTubeEmbed w event =
          ⟨[Action.httpGet (brandingPath (extractVideoID w u)),
            Action.createMessage event.ChannelID (replyMessage event.MessageID r),
            Action.updateMessage event.ChannelID event.MessageID suppressUpdate,
            Action.logError "there was an error while suppressing embeds: ",
            Action.closeBody], Outcome.returned⟩ ∧
        List.countP Action.isCreate (replaceYouTubeEmbed w event).trace = 1 ∧
        List.countP Action.isUpdate (replaceYouTubeEmbed w event).trace = 1 ∧
        List.countP Action.isLog (replaceYouTubeEmbed w event).trace = 1) ∧
    (w.UpdateMessage event.ChannelID event.MessageID suppressUpdate = Except.ok () →
      replaceYouTubeEmbed w event =
          ⟨[Action.httpGet (brandingPath (extractVideoID w u)),
            Action.createMessage event.ChannelID (replyMessage event.MessageID r),
            Action.updateMessage event.ChannelID event.MessageID suppressUpdate,
            Action.closeBody], Outcome.returned⟩ ∧
        outbound (replaceYouTubeEmbed w event).trace =
          [Action.createMessage event.ChannelID (replyMessage event.MessageID r),
            Action.updateMessage event.ChannelID event.MessageID suppressUpdate] ∧
        List.countP Action.isLog (replaceYouTubeEmbed w event).trace = 0) ∧
    suppressUpdate.Flags = some MessageFlagSuppressEmbeds := by
  have hrun := run_of_record w event e u rs br h hparse hget hdec
  simp only [hrep, sendReplacement, hcreate] at hrun
  refine ⟨?_, ?_, by decide⟩
  · intro err hupd
    simp only [hupd] at hrun
    rw [hrun]
    simp [Action.isLog, Action.isCreate, Action.isUpdate, List.countP_cons]
  · intro hupd
    simp only [hupd] at hrun
    rw [hrun]
    simp [Action.isLog, Action.isCreate, Action.isUpdate, List.countP_cons, outbound]

theorem reply_then_suppress_witness :
    List.countP Action.isCreate
        (replaceYouTubeEmbed Fake.updateFails (Fake.event [Fake.youTubeEmbed])).trace = 1 ∧
      List.countP Action.isUpdate
        (replaceYouTubeEmbed Fake.updateFails (Fake.event [Fake.youTubeEmbed])).trace = 1 ∧
      List.countP Action.isLog
        (replaceYouTubeEmbed Fake.updateFails (Fake.event [Fake.youTubeEmbed])).trace = 1 :=
  ((reply_then_suppress Fake.updateFails (Fake.event [Fake.youTubeEmbed])
    Fake.youTubeEmbed { RawQuery := "v=dQw4w9WgXcQ" } { StatusCode := 200, Body := "better-title" }
    Fake.betterTitle
    { Title := "Better Title",
      URL := "https://www.youtube.com/watch?v=dQw4w9WgXcQ",
      Color := 16711680,
      Footer := some { Text := "Original title: YOU WILL NOT BELIEVE THIS" },
      Image := some { URL := "https://i.ytimg.com/vi/dQw4w9WgXcQ/maxresdefault.jpg" },
      Author := some { Name := "Some Channel", URL := "https://www.youtube.com/@some",
                       IconURL := "" } }
    ⟨by decide, rfl, by decide⟩ (by decide) rfl rfl (by decide) rfl).1
      "403 Forbidden" rfl).2

/-! ## Nil pointers -/

/-- C9: on an eligible event, when url.Parse rejects the URL of the source
embed the handler dereferences the nil URL at line 87, before any fetch; when
it accepts the URL the first effect is the GET of the branding address followed
by the value of the query parameter v as it is, which is "" when v is absent. -/
theorem video_id_extraction (w : World) (event : GenericGuildMessage) (e : Embed)
    (h : Eligible w event e) :
    (w.urlParse e.URL = none →
      replaceYouTubeEmbed w event = ⟨[], Outcome.nilDereference⟩) ∧
    (∀ u, w.urlParse e.URL = some u →
      (replaceYouTubeEmbed w event).trace.head? =
          some (Action.httpGet
            ("https://sponsor.ajay.app/api/branding?videoID=" ++ Values.Get (w.Query u) "v")) ∧
        (w.Query u "v" = [] → Values.Get (w.Query u) "v" = "")) := by
  rw [run_of_eligible w event e h]
  refine ⟨?_, ?_⟩
  · intro hparse
    simp [hparse]
  · intro u hparse
    refine ⟨?_, ?_⟩
    · rw [← brandingPath_eq]
      change _ = some (Action.httpGet (brandingPath (extractVideoID w u)))
      cases hget : w.httpGet (brandingPath (extractVideoID w u)) <;> simp [hparse, hget]
    · intro hv
      simp [Values.Get, hv]

theorem video_id_extraction_witness :
    replaceYouTubeEmbed Fake.world (Fake.event [{ Fake.youTubeEmbed with URL := ":" }]) =
      ⟨[], Outcome.nilDereference⟩ :=
  (video_id_extraction Fake.world (Fake.event [{ Fake.youTubeEmbed with URL := ":" }])
    { Fake.youTubeEmbed with URL := ":" } ⟨by decide, rfl, by decide⟩).1 (by decide)

/-- C10: on an eligible event whose correction record is fetched and decoded,
a source embed without a thumbnail block or without an author block makes the
handler dereference a nil pointer (line 104 or 107): the trace is the fetch and
the deferred close of the body, and no create-message is issued. -/
theorem missing_block_is_dereferenced (w : World) (event : GenericGuildMessage) (e : Embed)
    (u : URL) (rs : Response) (br : BrandingResponse)
    (h : Eligible w event e) (hparse : w.urlParse e.URL = some u)
    (hget : w.httpGet (brandingPath (extractVideoID w u)) = Except.ok rs)
    (hdec : w.jsonDecode rs.Body = Except.ok br)
    (hmiss : e.Thumbnail = none ∨ e.Author = none) :
    replaceYouTubeEmbed w event =
      ⟨[Action.httpGet (brandingPath (extractVideoID w u)), Action.closeBody],
        Outcome.nilDereference⟩ := by
  have hrep : replacementEmbed e (extractVideoID w u) br = none := by
    rcases hmiss with hm | hm
    · simp [replacementEmbed, hm]
    · cases hT : e.Thumbnail <;> simp [replacementEmbed, hm, hT]
  have hrun := run_of_record w event e u rs br h hparse hget hdec
  simpa [hrep] using hrun

theorem missing_block_is_dereferenced_witness :
    replaceYouTubeEmbed Fake.world
        (Fake.event [{ Fake.youTubeEmbed with Thumbnail := none }]) =
      ⟨[Action.httpGet "https://sponsor.ajay.app/api/branding?videoID=dQw4w9WgXcQ",
        Action.closeBody], Outcome.nilDereference⟩ :=
  missing_block_is_dereferenced Fake.world
    (Fake.event [{ Fake.youTubeEmbed with Thumbnail := none }])
    { Fake.youTubeEmbed with Thumbnail := none } { RawQuery := "v=dQw4w9WgXcQ" }
    { StatusCode := 200, Body := "better-title" } Fake.betterTitle
    ⟨by decide, rfl, by decide⟩ (by decide) rfl rfl (Or.inl rfl)

/-! ## The thumbnail address -/

/-- C8, as stated, fails: a random time of 1e308 and a duration of 10 seconds,
both finite, have the product +Inf, and the time field of the address is then
"+Inf", which no six-digit fixed-point numeral equals. -/
theorem infinite_time_is_not_fixed_point :
    ¬ ∃ d, IsFixed6 d ∧
      formatThumbnailURL "dQw4w9WgXcQ"
          (Float64.mul (Float64.ofNat (10 ^ 308)) (Float64.ofNat 10)) =
        "https://dearrow-thumb.ajay.app/api/v1/getThumbnail?videoID=" ++ "dQw4w9WgXcQ"
          ++ "&time=" ++ d ++ "&generateNow=true" := by
  rintro ⟨d, ⟨sg, ip, fp, hd, _, _, _, _, _⟩, heq⟩
  have hinf : Float64.fmtF (Float64.mul (Float64.ofNat (10 ^ 308)) (Float64.ofNat 10)) =
      "+Inf" := by decide
  rw [formatThumbnailURL_eq, hinf] at heq
  have hdata := congrArg String.data heq
  simp only [String.data_append] at hdata
  have hd2 : d.data = ['+', 'I', 'n', 'f'] := by
    have h1 := List.append_cancel_right hdata
    have h2 := List.append_cancel_left h1
    exact h2.symm
  have hmem : '.' ∈ d.data := by
    rw [hd]
    simp
  rw [hd2] at hmem
  revert hmem
  decide

/-- C8, amended: formatThumbnailURL(id, t) is the thumbnail address with the
identifier and the time field d filled in, d being what `%f` prints for t: for
a finite t an optional minus sign, the integer digits, the point and exactly
six digits; for a t that is not finite "NaN", "+Inf" or "-Inf".  A first
thumbnail entry at 42.0 that is not flagged original gives time=42.000000, and
an empty thumbnail list with duration 600 and random time 0.5 gives
time=300.000000. -/
theorem formatThumbnailURL_time_field (videoID : String) (t : Float64) :
    formatThumbnailURL videoID t =
        "https://dearrow-thumb.ajay.app/api/v1/getThumbnail?videoID=" ++ videoID ++ "&time="
          ++ Float64.fmtF t ++ "&generateNow=true" ∧
      (t.isFinite = true → IsFixed6 (Float64.fmtF t)) ∧
      (t.isFinite = false →
        Float64.fmtF t = "NaN" ∨ Float64.fmtF t = "+Inf" ∨ Float64.fmtF t = "-Inf") ∧
      (∀ (original : String) (titles : List BrandingTitle) (rest : List BrandingThumbnail)
          (randomTime : Float64) (duration : Option Float64),
        chooseThumbnailURL original videoID
            { Titles := titles,
              Thumbnails := { Timestamp := Float64.ofNat 42, Original := false } :: rest,
              RandomTime := randomTime, VideoDuration := duration } =
          "https://dearrow-thumb.ajay.app/api/v1/getThumbnail?videoID=" ++ videoID
            ++ "&time=42.000000&generateNow=true") ∧
      (∀ (original : String) (titles : List BrandingTitle),
        chooseThumbnailURL original videoID
            { Titles := titles, Thumbnails := [],
              RandomTime := Float64.round false 1 (-1),
              VideoDuration := some (Float64.ofNat 600) } =
          "https://dearrow-thumb.ajay.app/api/v1/getThumbnail?videoID=" ++ videoID
            ++ "&time=300.000000&generateNow=true") := by
  have h42 : Float64.fmtF (Float64.ofNat 42) = "42.000000" := by decide
  have h300 : Float64.fmtF (Float64.mul (Float64.round false 1 (-1)) (Float64.ofNat 600)) =
      "300.000000" := by decide
  have hne : Float64.ne (Float64.ofNat 600) (Float64.zero false) = true := by decide
  refine ⟨formatThumbnailURL_eq videoID t, Float64.fmtF_of_finite t,
    Float64.fmtF_of_not_finite t, ?_, ?_⟩
  · intro original titles rest randomTime duration
    simp only [chooseThumbnailURL, List.head?_cons, Bool.not_false, if_true,
      formatThumbnailURL_eq, h42]
    apply String.ext
    simp
  · intro original titles
    simp only [chooseThumbnailURL, List.head?_nil, fallbackThumbnailURL, hne, if_true,
      formatThumbnailURL_eq, h300]
    apply String.ext
    simp

theorem formatThumbnailURL_time_field_witness :
    IsFixed6 (Float64.fmtF (Float64.ofNat 42)) ∧
      formatThumbnailURL "dQw4w9WgXcQ" (Float64.ofNat 42) =
        "https://dearrow-thumb.ajay.app/api/v1/getThumbnail?videoID=dQw4w9WgXcQ&time=42.000000&generateNow=true" :=
  ⟨(formatThumbnailURL_time_field "dQw4w9WgXcQ" (Float64.ofNat 42)).2.1 (by decide), by decide⟩

end DeArrow
